import Mathlib

/-!
Verification development for the CAMALEON adaptive cyber-deception core
(crates `chame_core` and `posture_engine`).

The Rust source computes threat levels with IEEE-754 double precision
(`f64`).  Every finite double is a rational number, so the embedding
represents doubles as exact rationals (`ℚ`) and models the rounding that
`f64` addition and subtraction perform with an explicit
round-to-nearest, ties-to-even function `rnd` (53-bit significand, the
normal range; none of the verified computations leave it).  Each decimal
literal of the source (`0.1`, `0.2`, ...) is embedded as the exact value
of the IEEE-754 double nearest to it, e.g. `0.1` is
`3602879701896397 / 2 ^ 55`.
-/

set_option maxRecDepth 4000

namespace Camaleon

/-- Round a rational to the nearest integer, ties to even
(the IEEE-754 default rounding applied to a scaled significand). -/
def rne (s : ℚ) : ℤ :=
  let n := ⌊s⌋
  let f := s - (n : ℚ)
  if f < 1 / 2 then n
  else if 1 / 2 < f then n + 1
  else if n % 2 = 0 then n else n + 1

/-- Round a positive rational to the nearest `f64` value (normal range):
scale into the 53-bit significand window `[2^52, 2^53)`, round to
nearest (ties to even), and scale back. -/
def rndPos (q : ℚ) : ℚ :=
  ((rne (q * (2 : ℚ) ^ (-(Int.log 2 q - 52))) : ℤ) : ℚ) * (2 : ℚ) ^ (Int.log 2 q - 52)

/-- Round a rational to the nearest `f64` value (normal range, sign-symmetric). -/
def rnd (q : ℚ) : ℚ :=
  if 0 < q then rndPos q else if q < 0 then -rndPos (-q) else 0

/-- Model of `f64` addition: exact rational sum, then rounding. -/
def fadd (a b : ℚ) : ℚ := rnd (a + b)

/-- Model of `f64` subtraction: exact rational difference, then rounding. -/
def fsub (a b : ℚ) : ℚ := rnd (a - b)

/-!
Exact values of the `f64` decimal literals appearing in `chame_core` and
`posture_engine` (each is the IEEE-754 double nearest to the source
literal; `0.5`, `0.75`, `0.25` and `1.0` are exactly representable and
kept in plain form).
-/

/-- The `f64` literal `0.05` (severity delta for `Low`). -/
def q005 : ℚ := 3602879701896397 / 2 ^ 56

/-- The `f64` literal `0.1` (severity delta for `Medium`). -/
def q01 : ℚ := 3602879701896397 / 2 ^ 55

/-- The `f64` literal `0.2` (severity delta for `High`; posture breakpoint;
de-escalation gap bound). -/
def q02 : ℚ := 3602879701896397 / 2 ^ 54

/-- The `f64` literal `0.3` (escalation gate bound; batch Neutral bound;
`Medium` batch weight). -/
def q03 : ℚ := 5404319552844595 / 2 ^ 54

/-- The `f64` literal `0.4` (severity delta for `Critical`; posture breakpoint). -/
def q04 : ℚ := 3602879701896397 / 2 ^ 53

/-- The `f64` literal `0.6` (posture breakpoint; batch Mimetic bound). -/
def q06 : ℚ := 5404319552844595 / 2 ^ 53

/-- The `f64` literal `0.62` (de-escalation test value from the spec). -/
def q062 : ℚ := 5584463537939415 / 2 ^ 53

/-- The `f64` literal `0.7` (`High` batch weight). -/
def q07 : ℚ := 3152519739159347 / 2 ^ 52

/-- The `f64` literal `0.8` (posture breakpoint). -/
def q08 : ℚ := 3602879701896397 / 2 ^ 52

/-- The `f64` literal `0.9` (batch Fulgurant/Unstable bound). -/
def q09 : ℚ := 8106479329266893 / 2 ^ 53

/-!
Model of `chame_core`: events and severities (`events.rs`), the shared
state (`state.rs`), and the adaptive posture manager (`adaptive.rs`).
-/

/-- Event severity levels, in the declaration order of `events.rs`
(`Critical`, `High`, `Medium`, `Low`, `Info`). -/
inductive Severity
| Critical
| High
| Medium
| Low
| Info
deriving DecidableEq, Repr

/-- Declaration index of a `Severity` variant.  `events.rs` derives
`PartialOrd`/`Ord` for `Severity`; per the Rust reference, the derived
order on a fieldless enum compares discriminants, and without explicit
discriminants these are the declaration indices — so the variant declared
first (`Critical`) is the least. -/
def Severity.discr : Severity → ℕ
| .Critical => 0
| .High => 1
| .Medium => 2
| .Low => 3
| .Info => 4

/-- The strict order `<` that `#[derive(PartialOrd, Ord)]` produces on
`Severity`: comparison of discriminants. -/
def sevLt (a b : Severity) : Prop := a.discr < b.discr

/-- The non-strict order `≤` that `#[derive(PartialOrd, Ord)]` produces on
`Severity`. -/
def sevLe (a b : Severity) : Prop := a.discr ≤ b.discr

/-- Event kinds of `events.rs` (`EventType`). -/
inductive EventType
| SecurityAlert
| SystemChange
| NetworkActivity
| PostureChange
| HoneypotActivity
| FingerprintChange
| ServiceLifecycle
| MetricsReport
| Custom (name : String)
deriving DecidableEq, Repr

/-- An event (`events.rs`).  The JSON payload is carried opaquely; the
timestamp is an abstract instant. -/
structure Event where
  timestamp : ℕ
  event_type : EventType
  source : String
  data : Option String
deriving DecidableEq, Repr

/-- Severity derived from the event type (`Event::severity`).  Note that no
branch returns `Critical`. -/
def Event.severity (e : Event) : Severity :=
  match e.event_type with
  | .SecurityAlert => .High
  | .PostureChange => .Medium
  | .SystemChange => .Medium
  | .HoneypotActivity => .Medium
  | .FingerprintChange => .Low
  | .ServiceLifecycle => .Low
  | .NetworkActivity => .Info
  | .MetricsReport => .Info
  | .Custom _ => .Info

/-- System postures (`lib.rs` of `chame_core`). -/
inductive Posture
| Silent
| Neutral
| Mimetic
| Fulgurant
| Unstable
deriving DecidableEq, Repr

/-- Position of a posture in the fixed escalation order
`Neutral < Silent < Mimetic < Fulgurant < Unstable` (spec section 3);
used only to state claims about `is_escalation`. -/
def escRank : Posture → ℕ
| .Neutral => 0
| .Silent => 1
| .Mimetic => 2
| .Fulgurant => 3
| .Unstable => 4

/-- Service lifecycle status (`state.rs`). -/
inductive Status
| Created
| Initializing
| Ready
| Starting
| Running
| Paused
| Stopping
| Stopped
| Error
| Unknown
deriving DecidableEq, Repr

/-- Shared system state (`state.rs`, `ChameleonState`).  The service,
honeypot and fingerprint bookkeeping collections are omitted: no verified
operation reads or writes them. -/
structure ChameleonState where
  status : Status
  current_posture : Posture
  started_at : Option ℕ
  last_posture_change : Option ℕ
  threat_level : ℚ
deriving DecidableEq, Repr

/-- `ChameleonState::new`: `Created` status, `Neutral` posture, threat 0. -/
def ChameleonState.new : ChameleonState :=
  { status := .Created
    current_posture := .Neutral
    started_at := none
    last_posture_change := none
    threat_level := 0 }

/-- `ChameleonState::increase_threat_level`:
`threat_level = (threat_level + amount).min(1.0)` in `f64` arithmetic.
Note there is no floor at 0. -/
def ChameleonState.increase_threat_level (st : ChameleonState) (amount : ℚ) : ChameleonState :=
  { st with threat_level := min (fadd st.threat_level amount) 1 }

/-- `ChameleonState::decrease_threat_level`:
`threat_level = (threat_level - amount).max(0.0)` in `f64` arithmetic.
Note there is no cap at 1. -/
def ChameleonState.decrease_threat_level (st : ChameleonState) (amount : ℚ) : ChameleonState :=
  { st with threat_level := max (fsub st.threat_level amount) 0 }

/-- One call to either threat-level mutator, with its `f64` delta. -/
inductive ThreatOp
| inc (amount : ℚ)
| dec (amount : ℚ)
deriving DecidableEq, Repr

/-- Apply one threat-level call to the state. -/
def applyThreatOp (st : ChameleonState) : ThreatOp → ChameleonState
| .inc a => st.increase_threat_level a
| .dec a => st.decrease_threat_level a

/-- Apply a sequence of threat-level calls, oldest first. -/
def applyThreatOps (st : ChameleonState) (ops : List ThreatOp) : ChameleonState :=
  ops.foldl applyThreatOp st

/-- A delta is nonnegative. -/
def ThreatOp.nonneg : ThreatOp → Prop
| .inc a => 0 ≤ a
| .dec a => 0 ≤ a

/-- The adaptive manager (`adaptive.rs`): its only data is the override
threshold. -/
structure AdaptiveManager where
  threshold : ℚ
deriving DecidableEq, Repr

/-- `AdaptiveManager::new`: default threshold `0.75`. -/
def AdaptiveManager.new : AdaptiveManager := { threshold := 3 / 4 }

/-- `AdaptiveManager::set_threshold`: clamp into `[0, 1]`
(`threshold.max(0.0).min(1.0)`). -/
def AdaptiveManager.set_threshold (_m : AdaptiveManager) (threshold : ℚ) : AdaptiveManager :=
  { threshold := min (max threshold 0) 1 }

/-- `AdaptiveManager::determine_optimal_posture`: fixed breakpoints on the
threat level. -/
def determine_optimal_posture (threat_level : ℚ) : Posture :=
  if threat_level < q02 then .Neutral
  else if threat_level < q04 then .Silent
  else if threat_level < q06 then .Mimetic
  else if threat_level < q08 then .Fulgurant
  else .Unstable

/-- The `is_escalation` match of `AdaptiveManager::should_change_posture`,
verbatim: ten explicit escalation pairs, ten explicit de-escalation pairs,
and a wildcard (reached only for equal postures) yielding `false`. -/
def is_escalation (current proposed : Posture) : Bool :=
  match current, proposed with
  | .Neutral, .Silent => true
  | .Neutral, .Mimetic => true
  | .Neutral, .Fulgurant => true
  | .Neutral, .Unstable => true
  | .Silent, .Mimetic => true
  | .Silent, .Fulgurant => true
  | .Silent, .Unstable => true
  | .Mimetic, .Fulgurant => true
  | .Mimetic, .Unstable => true
  | .Fulgurant, .Unstable => true
  | .Silent, .Neutral => false
  | .Mimetic, .Neutral => false
  | .Mimetic, .Silent => false
  | .Fulgurant, .Neutral => false
  | .Fulgurant, .Silent => false
  | .Fulgurant, .Mimetic => false
  | .Unstable, .Neutral => false
  | .Unstable, .Silent => false
  | .Unstable, .Mimetic => false
  | .Unstable, .Fulgurant => false
  | _, _ => false

/-- `AdaptiveManager::should_change_posture`.  The subtractions are `f64`
subtractions (`fsub`); the comparisons are exact on the resulting values. -/
def should_change_posture (m : AdaptiveManager) (current proposed : Posture)
    (old_threat new_threat : ℚ) : Bool :=
  if m.threshold < |fsub new_threat old_threat| then true
  else if is_escalation current proposed then
    decide (old_threat < new_threat) && decide (q03 < new_threat)
  else
    decide (new_threat < old_threat) && decide (q02 < fsub old_threat new_threat)

/-- `AdaptiveManager::evaluate_posture_change`: bump the threat level by the
severity-indexed delta, propose a posture for the new threat, and commit it
only if it differs from the current posture and the gate allows the change.
Returns the new state and whether the posture changed. -/
def evaluate_posture_change (m : AdaptiveManager) (event : Event) (now : ℕ)
    (st : ChameleonState) : ChameleonState × Bool :=
  let current_posture := st.current_posture
  let threat_level := st.threat_level
  let st1 :=
    match event.severity with
    | .Critical => st.increase_threat_level q04
    | .High => st.increase_threat_level q02
    | .Medium => st.increase_threat_level q01
    | .Low => st.increase_threat_level q005
    | .Info => st
  let new_posture := determine_optimal_posture st1.threat_level
  if new_posture ≠ current_posture then
    if should_change_posture m current_posture new_posture threat_level st1.threat_level then
      ({ st1 with current_posture := new_posture, last_posture_change := some now }, true)
    else (st1, false)
  else (st1, false)

/-- `AdaptiveManager::force_posture`: unconditional commit. -/
def force_posture (posture : Posture) (now : ℕ) (st : ChameleonState) : ChameleonState :=
  { st with current_posture := posture, last_posture_change := some now }

/-- `MetricsCollector::record_event`, event-history part: push, then if the
length exceeds 10000 keep the most recent 10000 (`split_off(len - 10000)`).
Counters, gauges and time series are not modelled; no claim mentions them. -/
def record_event (events : List Event) (event : Event) : List Event :=
  let events2 := events ++ [event]
  if 10000 < events2.length then events2.drop (events2.length - 10000) else events2

/-- Record a sequence of events into the history, oldest first. -/
def record_events (events : List Event) (es : List Event) : List Event :=
  es.foldl record_event events

/-!
Model of the `posture_engine` crate (`posture_engine/src/lib.rs`).  It has
its own `Posture` enum and works over `chame_core` events.  The batch
threat formula multiplies severity counts by the `f64` literals `1.0`,
`0.7` and `0.3` and divides by the slice length; the products, the sum and
the quotient are modelled with exact rational arithmetic (the claims
settled against this path compare the threat against thresholds at
distance at least `0.05`, far beyond the `2⁻⁵⁰`-scale rounding of the
elided `f64` operations, except where a bound is itself an `f64`
literal, which is embedded exactly). -/
namespace PE

/-- Defensive postures of `posture_engine`, in declaration order. -/
inductive Posture
| Silent
| Neutral
| Mimetic
| Fulgurant
| Unstable
deriving DecidableEq, Repr

/-- Debug name of a posture (the `{:?}` rendering used in error messages). -/
def Posture.debugName : Posture → String
| .Silent => "Silent"
| .Neutral => "Neutral"
| .Mimetic => "Mimetic"
| .Fulgurant => "Fulgurant"
| .Unstable => "Unstable"

/-- Errors of the `posture_engine` crate (`PostureEngineError`).  The
`Io` variant's payload is carried as text. -/
inductive PostureEngineError
| InvalidPosture (msg : String)
| PostureChange (msg : String)
| ServiceRotation (msg : String)
| IoError (msg : String)
deriving DecidableEq, Repr

/-- Configuration (`PostureEngineConfig`). -/
structure PostureEngineConfig where
  change_threshold : ℚ
  service_rotation_enabled : Bool
  service_rotation_interval : ℕ
  postures : List Posture
deriving DecidableEq, Repr

/-- `PostureEngineConfig::default`: threshold `0.75`, rotation off,
interval 7200 s, all five postures allowed. -/
def PostureEngineConfig.default : PostureEngineConfig :=
  { change_threshold := 3 / 4
    service_rotation_enabled := false
    service_rotation_interval := 7200
    postures := [.Silent, .Neutral, .Mimetic, .Fulgurant, .Unstable] }

/-- The engine state (`PostureEngine`): configuration, current posture and
posture history.  The notification channel and the service rotator are
side-effecting infrastructure and are not modelled. -/
structure PostureEngine where
  config : PostureEngineConfig
  current_posture : Posture
  posture_history : List (Posture × ℕ)
deriving DecidableEq, Repr

/-- `PostureEngine::set_posture`: reject a posture missing from the allowed
list with `InvalidPosture`; otherwise update the current posture and append
a `(posture, timestamp)` entry to the history. -/
def set_posture (pe : PostureEngine) (posture : Posture) (now : ℕ) :
    Except PostureEngineError PostureEngine :=
  if posture ∉ pe.config.postures then
    .error (.InvalidPosture ("Posture not in allowed list: " ++ posture.debugName))
  else
    .ok { pe with
      current_posture := posture
      posture_history := pe.posture_history ++ [(posture, now)] }

/-- The threat level computed by `PostureEngine::evaluate_events`:
`min((critical·1.0 + high·0.7 + medium·0.3) / len, 1.0)`, or `0.0` for an
empty slice. -/
def threat_level_of (events : List Camaleon.Event) : ℚ :=
  let critical_count := events.countP (fun e => decide (e.severity = .Critical))
  let high_count := events.countP (fun e => decide (e.severity = .High))
  let medium_count := events.countP (fun e => decide (e.severity = .Medium))
  if events.isEmpty then 0
  else
    min (((critical_count : ℚ) * 1 + (high_count : ℚ) * Camaleon.q07
      + (medium_count : ℚ) * Camaleon.q03) / (events.length : ℚ)) 1

/-- `PostureEngine::determine_best_posture`: breakpoints `0.9`, `0.6`,
`0.3`, with `SecurityAlert` presence picking `Fulgurant` over `Unstable`
in the top band. -/
def determine_best_posture (threat_level : ℚ) (events : List Camaleon.Event) : Posture :=
  if Camaleon.q09 ≤ threat_level then
    if events.any (fun e =>
        match e.event_type with
        | .SecurityAlert => true
        | _ => false) then .Fulgurant
    else .Unstable
  else if Camaleon.q06 ≤ threat_level then .Mimetic
  else if Camaleon.q03 ≤ threat_level then .Neutral
  else .Silent

/-- `PostureEngine::evaluate_events`: compute the windowed threat level;
if it reaches `change_threshold` and the best posture differs from the
current one, commit it through `set_posture` and return `true`; otherwise
return `false`.  No hysteresis gate appears in this path. -/
def evaluate_events (pe : PostureEngine) (events : List Camaleon.Event) (now : ℕ) :
    Except PostureEngineError (PostureEngine × Bool) :=
  let threat_level := threat_level_of events
  if pe.config.change_threshold ≤ threat_level then
    let current_posture := pe.current_posture
    let new_posture := determine_best_posture threat_level events
    if current_posture ≠ new_posture then
      match set_posture pe new_posture now with
      | .ok pe2 => .ok (pe2, true)
      | .error e => .error e
    else .ok (pe, false)
  else .ok (pe, false)

end PE

/-!
Model of the handler registry and dispatcher.

Modelled from the spec: the `AdaptiveEngine` dispatcher itself
(`chame_core::adaptive::AdaptiveEngine` with `register_handler` /
`process_event`, together with `AdaptiveEvent`, `AdaptiveHandler` and
`AdaptiveError`) is not among the provided sources — only its unit tests
(`tests/adaptive_tests.rs`, `tests/events_tests.rs`) and the subsystem
handler implementations (`eye360`, `lurefield`, `nettongue`,
`pigment_api`, `posture_engine` `handler.rs` files) that import it appear.
The definitions below follow spec sections 3 and 4.3: normalized signals,
a name-keyed handler list dispatched sequentially in registration order,
unconditional history recording with a cap of 1000, and a stop at the
first failing handler whose error is wrapped with the handler name.  The
`AdaptiveEvent` field layout follows the unit tests. -/
namespace Dispatch

/-- A normalized signal (`AdaptiveEvent`): textual kind, integer severity
score, opaque payload. -/
structure AdaptiveEvent where
  source : String
  event_type : String
  severity : ℕ
  data : Option String
  timestamp : ℕ
deriving DecidableEq, Repr

/-- Dispatcher error taxonomy (spec section 4.3):
`ProcessingFailed` carries the failing handler's name and the cause. -/
inductive AdaptiveError
| HandlerNotFound (name : String)
| ProcessingFailed (handler : String) (cause : String)
| Internal (msg : String)
deriving DecidableEq, Repr

/-- A reactive handler: consumes a normalized signal, may fail with a
textual cause.  Handler state effects are abstracted away; the dispatch
theorems track which handlers were invoked. -/
def Handler : Type := AdaptiveEvent → Except String Unit

/-- The handler registry and dispatch history (`AdaptiveEngine`). -/
structure AdaptiveEngine where
  handlers : List (String × Handler)
  history : List AdaptiveEvent

/-- Run the handlers sequentially in registration order; stop at the first
failure, wrapping it with the handler's name.  Returns the names invoked
(in order) and the outcome. -/
def run_handlers : List (String × Handler) → AdaptiveEvent →
    List String × Except AdaptiveError Unit
| [], _ => ([], .ok ())
| (name, h) :: rest, signal =>
    match h signal with
    | .ok _ =>
        let r := run_handlers rest signal
        (name :: r.1, r.2)
    | .error cause => ([name], .error (.ProcessingFailed name cause))

/-- `process_event`: record the signal in the bounded history (cap 1000,
oldest evicted) before dispatch, then run the handlers.  Returns the new
engine, the invoked handler names, and the outcome. -/
def process_event (eng : AdaptiveEngine) (event : AdaptiveEvent) :
    AdaptiveEngine × List String × Except AdaptiveError Unit :=
  let history2 := eng.history ++ [event]
  let history3 :=
    if 1000 < history2.length then history2.drop (history2.length - 1000) else history2
  let r := run_handlers eng.handlers event
  ({ eng with history := history3 }, r.1, r.2)

end Dispatch

/-- The `f64` value of `0.1 + 0.2`: it rounds UP to
`0.30000000000000004...`, which is strictly greater than the `f64`
literal `0.3`. -/
def t1 : ℚ := 1351079888211149 / 2 ^ 52

/-- The security-alert event of `test_threat_escalation` (payload and
timestamp are irrelevant to the decision path). -/
def sample_event : Event :=
  { timestamp := 0, event_type := .SecurityAlert, source := "test", data := none }

/-- Initial scenario state: fresh state with posture `Neutral` and threat
`0.1`, exactly as set up by `test_threat_escalation` and by the spec's
hysteresis scenario. -/
def scenario_state0 : ChameleonState :=
  { ChameleonState.new with current_posture := .Neutral, threat_level := q01 }

/-- State after the first High-severity event: threat `0.1 + 0.2` (which
is `> 0.3` in `f64`), posture already `Silent`. -/
def scenario_state1 : ChameleonState :=
  { scenario_state0 with
    current_posture := .Silent
    last_posture_change := some 7
    threat_level := t1 }

/-- State after the second High-severity event: threat `0.5` (the `f64`
sum rounds back to exactly `1/2`), posture `Mimetic`. -/
def scenario_state2 : ChameleonState :=
  { scenario_state1 with
    current_posture := .Mimetic
    last_posture_change := some 8
    threat_level := 1 / 2 }

/-- A default-configured engine with current posture `Silent` and empty
history, used as the witness input for C6. -/
def pe_default_engine : PE.PostureEngine :=
  { config := PE.PostureEngineConfig.default
    current_posture := .Silent
    posture_history := [] }

/-- A handler that always succeeds (C8 witness). -/
def handler_ok : Dispatch.Handler := fun _ => .ok ()

/-- A handler that always fails with cause `"boom"` (C8 witness). -/
def handler_fail : Dispatch.Handler := fun _ => .error "boom"

/-- A concrete normalized signal (C8 witness). -/
def w_signal : Dispatch.AdaptiveEvent :=
  { source := "src", event_type := "SecurityAlert", severity := 8, data := none, timestamp := 0 }

/-- An engine whose configuration allows only `Silent` (C10 witness). -/
def pe_restricted : PE.PostureEngine :=
  { config := { PE.PostureEngineConfig.default with postures := [.Silent] }
    current_posture := .Neutral
    posture_history := [] }

theorem floor_le_rne (s : ℚ) : ⌊s⌋ ≤ rne s := by
  unfold rne
  dsimp only
  split
  · exact le_refl _
  · split
    · omega
    · split
      · exact le_refl _
      · omega

theorem rne_le_floor_add_one (s : ℚ) : rne s ≤ ⌊s⌋ + 1 := by
  unfold rne
  dsimp only
  split
  · omega
  · split
    · omega
    · split
      · omega
      · omega

theorem rne_intCast (n : ℤ) : rne (n : ℚ) = n := by
  unfold rne
  rw [Int.floor_intCast]
  simp

theorem rnd_neg (q : ℚ) : rnd (-q) = -rnd q := by
  unfold rnd
  rcases lt_trichotomy q 0 with h | h | h
  · rw [if_pos (by linarith : (0 : ℚ) < -q), if_neg (by linarith : ¬0 < q), if_pos h, neg_neg]
  · subst h; simp
  · rw [if_neg (by linarith : ¬(0 : ℚ) < -q), if_pos (by linarith : -q < 0), if_pos h, neg_neg]

theorem rndPos_nonneg (q : ℚ) (hq : 0 < q) : 0 ≤ rndPos q := by
  unfold rndPos
  have hs : (0 : ℚ) ≤ q * (2 : ℚ) ^ (-(Int.log 2 q - 52)) := by positivity
  have h1 : (0 : ℤ) ≤ ⌊q * (2 : ℚ) ^ (-(Int.log 2 q - 52))⌋ := Int.floor_nonneg.mpr hs
  have h2 := floor_le_rne (q * (2 : ℚ) ^ (-(Int.log 2 q - 52)))
  have h3 : (0 : ℚ) ≤ ((rne (q * (2 : ℚ) ^ (-(Int.log 2 q - 52))) : ℤ) : ℚ) := by
    exact_mod_cast le_trans h1 h2
  positivity

theorem rnd_nonneg (q : ℚ) (hq : 0 ≤ q) : 0 ≤ rnd q := by
  unfold rnd
  split
  · exact rndPos_nonneg q (by assumption)
  · split
    · linarith
    · exact le_refl _

theorem rnd_nonpos (q : ℚ) (hq : q ≤ 0) : rnd q ≤ 0 := by
  have h := rnd_nonneg (-q) (by linarith)
  rw [rnd_neg] at h
  linarith

/-- Characterization of `rnd` on the binade `[2^(e+52), 2^(e+53))`:
the exponent search of `rndPos` returns `e`. -/
theorem rnd_eq (q : ℚ) (e : ℤ) (h1 : (2 : ℚ) ^ (e + 52) ≤ q) (h2 : q < (2 : ℚ) ^ (e + 53)) :
    rnd q = ((rne (q * (2 : ℚ) ^ (-e)) : ℤ) : ℚ) * (2 : ℚ) ^ e := by
  have hq : 0 < q := lt_of_lt_of_le (by positivity) h1
  have hlog : Int.log 2 q = e + 52 := by
    have hlo : e + 52 ≤ Int.log 2 q := by
      rw [← Int.zpow_le_iff_le_log (by norm_num) hq]
      exact_mod_cast h1
    have hhi : Int.log 2 q < e + 53 := by
      rw [← Int.lt_zpow_iff_log_lt (by norm_num) hq]
      exact_mod_cast h2
    omega
  unfold rnd rndPos
  rw [if_pos hq, hlog]
  have he : e + 52 - 52 = e := by ring
  rw [he]

/-- Division form of `rnd_eq`, for values below `2` written over a power
of two denominator. -/
theorem rnd_eq_div (q : ℚ) (k : ℕ) (h1 : 2 ^ 52 ≤ q * 2 ^ k) (h2 : q * 2 ^ k < 2 ^ 53) :
    rnd q = ((rne (q * 2 ^ k) : ℤ) : ℚ) / 2 ^ k := by
  have h2k : (0 : ℚ) < 2 ^ k := by positivity
  have hzk : ((2 : ℚ) ^ (k : ℤ)) = (2 : ℚ) ^ (k : ℕ) := by
    exact_mod_cast zpow_natCast (2 : ℚ) k
  have e1 : (2 : ℚ) ^ (-(k : ℤ) + 52) = 2 ^ 52 / 2 ^ k := by
    rw [zpow_add₀ (by norm_num : (2 : ℚ) ≠ 0), zpow_neg, hzk]
    rw [div_eq_mul_inv, mul_comm]
    norm_num
  have e2 : (2 : ℚ) ^ (-(k : ℤ) + 53) = 2 ^ 53 / 2 ^ k := by
    rw [zpow_add₀ (by norm_num : (2 : ℚ) ≠ 0), zpow_neg, hzk]
    rw [div_eq_mul_inv, mul_comm]
    norm_num
  have hq1 : (2 : ℚ) ^ (-(k : ℤ) + 52) ≤ q := by
    rw [e1, div_le_iff₀ h2k]; exact h1
  have hq2 : q < (2 : ℚ) ^ (-(k : ℤ) + 53) := by
    rw [e2, lt_div_iff₀ h2k]; exact h2
  have := rnd_eq q (-(k : ℤ)) hq1 hq2
  rw [this, neg_neg, hzk, zpow_neg, hzk, div_eq_mul_inv]

/-- Values of the form `m / 2^k` with a normalized 53-bit significand are
exactly representable: `rnd` fixes them. -/
theorem rnd_fix (q : ℚ) (k : ℕ) (m : ℤ) (hm1 : 2 ^ 52 ≤ m) (hm2 : m < 2 ^ 53)
    (hq : q = (m : ℚ) / 2 ^ k) : rnd q = q := by
  have h2k : (0 : ℚ) < 2 ^ k := by positivity
  have hqm : q * 2 ^ k = (m : ℚ) := by rw [hq]; field_simp
  have h1 : (2 : ℚ) ^ 52 ≤ q * 2 ^ k := by
    rw [hqm]; exact_mod_cast hm1
  have h2 : q * 2 ^ k < 2 ^ 53 := by
    rw [hqm]; exact_mod_cast hm2
  rw [rnd_eq_div q k h1 h2, hqm, rne_intCast, hq]

/-- Rounding never pushes a value that is at most `1` above `1`
(`1` is representable, and round-to-nearest keeps representable bounds). -/
theorem rnd_le_one (q : ℚ) (h : q ≤ 1) : rnd q ≤ 1 := by
  rcases le_or_lt q 0 with h0 | h0
  · exact le_trans (rnd_nonpos q h0) (by norm_num)
  rcases eq_or_lt_of_le h with rfl | hlt
  · rw [rnd_fix 1 52 (2 ^ 52) (le_refl _) (by norm_num) (by norm_num)]
  · have hlog : Int.log 2 q < 0 := by
      have h1 : q < ((2 : ℕ) : ℚ) ^ (0 : ℤ) := by norm_num; exact hlt
      exact (Int.lt_zpow_iff_log_lt (by norm_num) h0).mp h1
    unfold rnd rndPos
    rw [if_pos h0]
    set e : ℤ := Int.log 2 q - 52 with he
    set s : ℚ := q * (2 : ℚ) ^ (-e) with hs
    have h2e : (0 : ℚ) < (2 : ℚ) ^ e := by positivity
    have hq_hi : q < ((2 : ℕ) : ℚ) ^ (Int.log 2 q + 1) :=
      Int.lt_zpow_succ_log_self (by norm_num) q
    have hs_lt : s < (2 : ℚ) ^ (53 : ℤ) := by
      have hcast : ((2 : ℕ) : ℚ) = (2 : ℚ) := by norm_num
      rw [hs]
      calc q * (2 : ℚ) ^ (-e) < (2 : ℚ) ^ (Int.log 2 q + 1) * (2 : ℚ) ^ (-e) := by
            apply mul_lt_mul_of_pos_right _ (by positivity)
            rw [← hcast]; exact hq_hi
        _ = (2 : ℚ) ^ (Int.log 2 q + 1 + -e) := by
            rw [← zpow_add₀ (by norm_num : (2 : ℚ) ≠ 0)]
        _ = (2 : ℚ) ^ (53 : ℤ) := by rw [he]; ring_nf
    have hfloor : ⌊s⌋ < 2 ^ 53 := by
      apply Int.floor_lt.mpr
      calc s < (2 : ℚ) ^ (53 : ℤ) := hs_lt
        _ = ((2 ^ 53 : ℤ) : ℚ) := by norm_num
    have hrne : rne s ≤ 2 ^ 53 := le_trans (rne_le_floor_add_one s) (by omega)
    calc ((rne s : ℤ) : ℚ) * (2 : ℚ) ^ e ≤ ((2 : ℚ) ^ (53 : ℤ)) * (2 : ℚ) ^ e := by
          apply mul_le_mul_of_nonneg_right _ (le_of_lt h2e)
          calc ((rne s : ℤ) : ℚ) ≤ ((2 ^ 53 : ℤ) : ℚ) := by exact_mod_cast hrne
            _ = (2 : ℚ) ^ (53 : ℤ) := by norm_num
      _ = (2 : ℚ) ^ (53 + e) := by rw [← zpow_add₀ (by norm_num : (2 : ℚ) ≠ 0)]
      _ ≤ (2 : ℚ) ^ (0 : ℤ) := by
          apply zpow_le_zpow_right₀ (by norm_num)
          omega
      _ = 1 := by norm_num

/-- Helper for evaluating `rne` at a concrete half-integer or integer
argument: supply the floor and decide the branch conditions numerically. -/
theorem rne_eval (s : ℚ) (n r : ℤ) (hf : (n : ℚ) ≤ s) (hf2 : s < n + 1)
    (hr : r = if s - n < 1 / 2 then n else if 1 / 2 < s - n then n + 1
      else if n % 2 = 0 then n else n + 1) : rne s = r := by
  unfold rne
  rw [Int.floor_eq_iff.mpr ⟨hf, by exact_mod_cast hf2⟩, hr]

/-!
Concrete `f64` computations used by the hysteresis scenario of the spec
(section 8) and its test `test_threat_escalation`.
-/

theorem fadd_q01_q02 : fadd q01 q02 = t1 := by
  unfold fadd q01 q02 t1
  rw [rnd_eq_div _ 54 (by norm_num) (by norm_num)]
  rw [rne_eval _ 5404319552844595 5404319552844596 (by norm_num) (by norm_num) (by norm_num)]
  norm_num

theorem fsub_t1_q01 : fsub t1 q01 = 7205759403792795 / 2 ^ 55 := by
  unfold fsub
  rw [rnd_fix _ 55 7205759403792795 (by norm_num) (by norm_num) (by norm_num [t1, q01])]
  norm_num [t1, q01]

theorem fadd_t1_q02 : fadd t1 q02 = 1 / 2 := by
  unfold fadd t1 q02
  rw [rnd_eq_div _ 53 (by norm_num) (by norm_num)]
  rw [rne_eval _ 4503599627370496 4503599627370496 (by norm_num) (by norm_num) (by norm_num)]
  norm_num

theorem fsub_half_t1 : fsub (1 / 2) t1 = 3602879701896396 / 2 ^ 54 := by
  unfold fsub
  rw [rnd_fix _ 55 7205759403792792 (by norm_num) (by norm_num) (by norm_num [t1])]
  norm_num [t1]

theorem fsub_075_q062 : fsub (3 / 4) q062 = 4683743612465316 / 2 ^ 55 := by
  unfold fsub
  rw [rnd_fix _ 55 4683743612465316 (by norm_num) (by norm_num) (by norm_num [q062])]
  norm_num [q062]

theorem fsub_q062_075 : fsub q062 (3 / 4) = -(4683743612465316 / 2 ^ 55) := by
  unfold fsub
  rw [show q062 - 3 / 4 = -(3 / 4 - q062) by ring, rnd_neg]
  rw [rnd_fix _ 55 4683743612465316 (by norm_num) (by norm_num) (by norm_num [q062])]
  norm_num [q062]

theorem fsub_075_half : fsub (3 / 4) (1 / 2) = 1 / 4 := by
  unfold fsub
  rw [rnd_fix _ 54 4503599627370496 (by norm_num) (by norm_num) (by norm_num)]
  norm_num

theorem fsub_half_075 : fsub (1 / 2) (3 / 4) = -(1 / 4) := by
  unfold fsub
  rw [show (1 : ℚ) / 2 - 3 / 4 = -(3 / 4 - 1 / 2) by ring, rnd_neg]
  rw [rnd_fix _ 54 4503599627370496 (by norm_num) (by norm_num) (by norm_num)]
  norm_num

theorem fsub_q09_q04 : fsub q09 q04 = 1 / 2 := by
  unfold fsub
  rw [rnd_fix _ 53 4503599627370496 (by norm_num) (by norm_num) (by norm_num [q09, q04])]
  norm_num [q09, q04]

theorem fsub_q04_q09 : fsub q04 q09 = -(1 / 2) := by
  unfold fsub
  rw [show q04 - q09 = -(q09 - q04) by ring, rnd_neg]
  rw [rnd_fix _ 53 4503599627370496 (by norm_num) (by norm_num) (by norm_num [q09, q04])]
  norm_num [q09, q04]

theorem fadd_zero_neg_half : fadd 0 (-(1 / 2)) = -(1 / 2) := by
  unfold fadd
  rw [show (0 : ℚ) + -(1 / 2) = -(1 / 2) by ring, rnd_neg]
  rw [rnd_fix _ 53 4503599627370496 (by norm_num) (by norm_num) (by norm_num)]

theorem dop_t1 : determine_optimal_posture t1 = .Silent := by
  unfold determine_optimal_posture
  rw [if_neg (by norm_num [t1, q02]), if_pos (by norm_num [t1, q04])]

theorem dop_half : determine_optimal_posture (1 / 2) = .Mimetic := by
  unfold determine_optimal_posture
  rw [if_neg (by norm_num [q02]), if_neg (by norm_num [q04]), if_pos (by norm_num [q06])]

theorem gate_step1 : should_change_posture AdaptiveManager.new .Neutral .Silent q01 t1 = true := by
  unfold should_change_posture
  rw [fsub_t1_q01]
  rw [if_neg (by
    rw [abs_of_pos (by norm_num : (0 : ℚ) < 7205759403792795 / 2 ^ 55)]
    norm_num [AdaptiveManager.new])]
  simp only [is_escalation, if_true]
  rw [Bool.and_eq_true, decide_eq_true_eq, decide_eq_true_eq]
  constructor <;> norm_num [q01, q03, t1]

theorem gate_step2 : should_change_posture AdaptiveManager.new .Silent .Mimetic t1 (1 / 2) = true := by
  unfold should_change_posture
  rw [fsub_half_t1]
  rw [if_neg (by
    rw [abs_of_pos (by norm_num : (0 : ℚ) < 3602879701896396 / 2 ^ 54)]
    norm_num [AdaptiveManager.new])]
  simp only [is_escalation, if_true]
  rw [Bool.and_eq_true, decide_eq_true_eq, decide_eq_true_eq]
  constructor <;> norm_num [q03, t1]

theorem scenario_step1 :
    evaluate_posture_change AdaptiveManager.new sample_event 7 scenario_state0 =
      (scenario_state1, true) := by
  unfold evaluate_posture_change
  rw [show sample_event.severity = Severity.High from rfl]
  have hinc : scenario_state0.increase_threat_level q02 = { scenario_state0 with threat_level := t1 } := by
    unfold ChameleonState.increase_threat_level
    rw [show scenario_state0.threat_level = q01 from rfl, fadd_q01_q02]
    rw [min_eq_left (by norm_num [t1])]
  simp only [hinc]
  rw [dop_t1]
  rw [show scenario_state0.current_posture = Posture.Neutral from rfl,
    show scenario_state0.threat_level = q01 from rfl]
  rw [if_pos (show Posture.Silent ≠ Posture.Neutral by decide)]
  rw [if_pos gate_step1]
  rfl

theorem scenario_step2 :
    evaluate_posture_change AdaptiveManager.new sample_event 8 scenario_state1 =
      (scenario_state2, true) := by
  unfold evaluate_posture_change
  rw [show sample_event.severity = Severity.High from rfl]
  have hinc : scenario_state1.increase_threat_level q02 = { scenario_state1 with threat_level := 1 / 2 } := by
    unfold ChameleonState.increase_threat_level
    rw [show scenario_state1.threat_level = t1 from rfl, fadd_t1_q02]
    rw [min_eq_left (by norm_num)]
  simp only [hinc]
  rw [dop_half]
  rw [show scenario_state1.current_posture = Posture.Silent from rfl,
    show scenario_state1.threat_level = t1 from rfl]
  rw [if_pos (show Posture.Mimetic ≠ Posture.Silent by decide)]
  rw [if_pos gate_step2]
  rfl

/-!
General lemmas about the hysteresis gate, the threat-level invariant and
the metrics history.
-/

/-- The twenty-case `is_escalation` match agrees with the strict
escalation order `Neutral < Silent < Mimetic < Fulgurant < Unstable`
(and yields `false` on the wildcard, i.e. equal postures). -/
theorem is_escalation_eq (c p : Posture) : is_escalation c p = decide (escRank c < escRank p) := by
  cases c <;> cases p <;> rfl

theorem escRank_inj (c p : Posture) (h : escRank c = escRank p) : c = p := by
  cases c <;> cases p <;> simp_all [escRank]

/-- One `increase_threat_level` call with a nonnegative delta keeps the
threat level in `[0, 1]`. -/
theorem increase_mem (t a : ℚ) (ht0 : 0 ≤ t) (ha : 0 ≤ a) :
    0 ≤ min (fadd t a) 1 ∧ min (fadd t a) 1 ≤ 1 := by
  refine ⟨le_min (rnd_nonneg _ (by linarith)) (by norm_num), min_le_right _ _⟩

/-- One `decrease_threat_level` call with a nonnegative delta keeps the
threat level in `[0, 1]`. -/
theorem decrease_mem (t a : ℚ) (ht1 : t ≤ 1) (ha : 0 ≤ a) :
    0 ≤ max (fsub t a) 0 ∧ max (fsub t a) 0 ≤ 1 := by
  refine ⟨le_max_right _ _, max_le (rnd_le_one _ (by linarith)) (by norm_num)⟩

/-- Folding any sequence of nonnegative-delta threat calls over a state
whose threat level is in `[0, 1]` keeps it in `[0, 1]`. -/
theorem applyThreatOps_mem (ops : List ThreatOp) :
    ∀ st : ChameleonState, (∀ op ∈ ops, op.nonneg) →
      0 ≤ st.threat_level → st.threat_level ≤ 1 →
      0 ≤ (applyThreatOps st ops).threat_level ∧ (applyThreatOps st ops).threat_level ≤ 1 := by
  induction ops with
  | nil => intro st _ h0 h1; exact ⟨h0, h1⟩
  | cons op rest ih =>
    intro st hops h0 h1
    have hop : op.nonneg := hops op (List.mem_cons_self op rest)
    have hrest : ∀ o ∈ rest, o.nonneg := fun o ho => hops o (List.mem_cons_of_mem op ho)
    have hstep : 0 ≤ (applyThreatOp st op).threat_level ∧ (applyThreatOp st op).threat_level ≤ 1 := by
      cases op with
      | inc a =>
        have := increase_mem st.threat_level a h0 hop
        exact this
      | dec a =>
        have := decrease_mem st.threat_level a h1 hop
        exact this
    have := ih (applyThreatOp st op) hrest hstep.1 hstep.2
    simpa [applyThreatOps] using this

/-- Master lemma for the metrics history: recording a sequence of events
into an initially empty store keeps exactly the most recent 10000 of
them (`drop` of the excess prefix: FIFO eviction). -/
theorem record_events_eq_drop (es : List Event) :
    record_events [] es = es.drop (es.length - 10000) := by
  induction es using List.reverseRecOn with
  | nil => rfl
  | append_singleton es e ih =>
    unfold record_events at ih ⊢
    rw [List.foldl_append, List.foldl_cons, List.foldl_nil, ih]
    unfold record_event
    have hk : es.length - 10000 ≤ es.length := Nat.sub_le _ _
    have happ : (es ++ [e]).drop (es.length - 10000) = es.drop (es.length - 10000) ++ [e] := by
      rw [List.drop_append_eq_append_drop, Nat.sub_eq_zero_of_le hk, List.drop_zero]
    rcases le_or_lt es.length 9999 with hsmall | hbig
    · rw [if_neg (by simp; omega)]
      have h1 : es.length - 10000 = 0 := by omega
      have h2 : (es ++ [e]).length - 10000 = 0 := by simp; omega
      rw [h1, h2, List.drop_zero, List.drop_zero]
    · rw [if_pos (by simp; omega)]
      have h3 : (es.drop (es.length - 10000) ++ [e]).length - 10000 = 1 := by simp; omega
      have h4 : (es ++ [e]).length - 10000 = es.length - 10000 + 1 := by simp; omega
      rw [h3, h4, ← List.drop_drop, happ]

/-- No event kind maps to `Critical` severity (`Event::severity` has no
`Critical` branch). -/
theorem severity_ne_critical (e : Event) : e.severity ≠ Severity.Critical := by
  unfold Event.severity
  cases e.event_type <;> simp

theorem countP_critical_zero (events : List Event) :
    events.countP (fun e => decide (e.severity = Severity.Critical)) = 0 := by
  rw [List.countP_eq_zero]
  intro e _
  simp [severity_ne_critical e]

/-- Two pointwise-incompatible predicates count at most the length between
them. -/
theorem countP_pair_le (l : List Event) (p q : Event → Bool)
    (hpq : ∀ x, ¬(p x = true ∧ q x = true)) :
    l.countP p + l.countP q ≤ l.length := by
  induction l with
  | nil => simp
  | cons a l ih =>
    rw [List.countP_cons, List.countP_cons, List.length_cons]
    cases hp : p a <;> cases hq : q a
    · simp; omega
    · simp; omega
    · simp; omega
    · exact absurd ⟨hp, hq⟩ (hpq a)

/-- The windowed threat level never exceeds the `High` weight `0.7`
(since no event is `Critical`, every counted event contributes at most
`0.7`). -/
theorem threat_level_le_q07 (events : List Event) : PE.threat_level_of events ≤ q07 := by
  unfold PE.threat_level_of
  rcases hemp : events.isEmpty with hfalse | htrue
  · rw [if_neg (by simp [hemp])]
    rw [countP_critical_zero]
    have hn : 0 < events.length := by
      cases events
      · simp at hemp
      · simp
    set h := events.countP (fun e => decide (e.severity = Severity.High)) with hh
    set m := events.countP (fun e => decide (e.severity = Severity.Medium)) with hm
    have hhm : h + m ≤ events.length := by
      apply countP_pair_le
      intro x
      simp only [decide_eq_true_eq, not_and]
      intro h1 h2
      rw [h1] at h2
      exact Severity.noConfusion h2
    apply le_trans (min_le_left _ _)
    rw [div_le_iff₀ (by exact_mod_cast hn), mul_comm]
    have hq03 : q03 ≤ q07 := by norm_num [q03, q07]
    have hq07 : (0 : ℚ) ≤ q07 := by norm_num [q07]
    have s1 : (m : ℚ) * q03 ≤ (m : ℚ) * q07 :=
      mul_le_mul_of_nonneg_left hq03 (Nat.cast_nonneg m)
    have s2 : (h : ℚ) * q07 + (m : ℚ) * q07 ≤ (events.length : ℚ) * q07 := by
      have : ((h : ℚ) + (m : ℚ)) ≤ (events.length : ℚ) := by exact_mod_cast hhm
      nlinarith
    push_cast
    linarith
  · norm_num [q07]

/-- The last-recorded signal survives the 1000-cap trim of the dispatch
history. -/
theorem mem_trimmed_history (hist : List Dispatch.AdaptiveEvent) (e : Dispatch.AdaptiveEvent) :
    e ∈ (if 1000 < (hist ++ [e]).length then
      (hist ++ [e]).drop ((hist ++ [e]).length - 1000) else hist ++ [e]) := by
  split
  · next h =>
    have hlen : (hist ++ [e]).length = hist.length + 1 := by simp
    have hk : (hist ++ [e]).length - 1000 ≤ hist.length := by
      rw [hlen]
      omega
    rw [List.drop_append_eq_append_drop, Nat.sub_eq_zero_of_le hk, List.drop_zero]
    exact List.mem_append_right _ (List.mem_singleton_self e)
  · exact List.mem_append_right _ (List.mem_singleton_self e)

/-!
The claims.
-/

/-- C1, counterexample: contrary to the spec's hysteresis scenario, the
FIRST High-severity event from `(Neutral, threat 0.1)` already changes the
posture (to `Silent`) and `evaluate_posture_change` returns `true`,
because in `f64` arithmetic `0.1 + 0.2` rounds up to
`0.30000000000000004 > 0.3`, so the escalation gate `new_threat > 0.3`
passes.  The repo's own test `test_threat_escalation` asserts exactly this
behaviour.  The new threat level is also not the `f64` literal `0.3`. -/
theorem c1_counterexample :
    (evaluate_posture_change AdaptiveManager.new sample_event 7 scenario_state0).1.current_posture
        ≠ Posture.Neutral ∧
    (evaluate_posture_change AdaptiveManager.new sample_event 7 scenario_state0).2 = true ∧
    (evaluate_posture_change AdaptiveManager.new sample_event 7 scenario_state0).1.threat_level
        ≠ q03 := by
  rw [scenario_step1]
  refine ⟨by simp [scenario_state1], rfl, by norm_num [scenario_state1, t1, q03]⟩

/-- C1, amended: starting from posture `Neutral` and threat `0.1`, the
first High-severity event raises the threat to the `f64` value of
`0.1 + 0.2` (slightly above `0.3`) and already changes the posture to
`Silent`, returning `true`; the second High-severity event raises the
threat to exactly `0.5` and changes the posture from `Silent` to
`Mimetic`, returning `true`. -/
theorem c1_amended_scenario :
    evaluate_posture_change AdaptiveManager.new sample_event 7 scenario_state0 =
      (scenario_state1, true) ∧
    scenario_state1.current_posture = Posture.Silent ∧
    scenario_state1.threat_level = t1 ∧ q03 < t1 ∧
    evaluate_posture_change AdaptiveManager.new sample_event 8 scenario_state1 =
      (scenario_state2, true) ∧
    scenario_state2.current_posture = Posture.Mimetic ∧
    scenario_state2.threat_level = 1 / 2 :=
  ⟨scenario_step1, rfl, rfl, by norm_num [q03, t1], scenario_step2, rfl, rfl⟩

/-- C2, counterexample: `increase_threat_level` only caps at `1.0` and
does not floor at `0.0`, so a single `increase_threat_level(-0.5)` call
from the initial state drives the threat level to `-0.5`, outside
`[0, 1]`. -/
theorem c2_counterexample :
    (applyThreatOps ChameleonState.new [ThreatOp.inc (-(1 / 2))]).threat_level < 0 := by
  show (ChameleonState.new.increase_threat_level (-(1 / 2))).threat_level < 0
  unfold ChameleonState.increase_threat_level
  rw [show ChameleonState.new.threat_level = 0 from rfl, fadd_zero_neg_half]
  rw [min_eq_left (by norm_num)]
  norm_num

/-- C2, amended: for every sequence of `increase_threat_level` /
`decrease_threat_level` calls with NONNEGATIVE deltas, starting from the
initial state, the threat level stays within `[0, 1]`. -/
theorem c2_invariant (ops : List ThreatOp) (h : ∀ op ∈ ops, op.nonneg) :
    0 ≤ (applyThreatOps ChameleonState.new ops).threat_level ∧
      (applyThreatOps ChameleonState.new ops).threat_level ≤ 1 :=
  applyThreatOps_mem ops ChameleonState.new h (le_refl 0) (by norm_num [ChameleonState.new])

/-- Witness for C2: a concrete nonnegative sequence. -/
theorem c2_witness :
    (∀ op ∈ [ThreatOp.inc 1, ThreatOp.dec 1], op.nonneg) ∧
    0 ≤ (applyThreatOps ChameleonState.new [ThreatOp.inc 1, ThreatOp.dec 1]).threat_level ∧
      (applyThreatOps ChameleonState.new [ThreatOp.inc 1, ThreatOp.dec 1]).threat_level ≤ 1 := by
  have h : ∀ op ∈ [ThreatOp.inc 1, ThreatOp.dec 1], op.nonneg := by
    intro op hop
    rcases List.mem_cons.mp hop with rfl | hop2
    · exact zero_le_one
    · rcases List.mem_singleton.mp hop2 with rfl
      exact zero_le_one
  exact ⟨h, (c2_invariant _ h).1, (c2_invariant _ h).2⟩

/-- C3: the hysteresis gate, for distinct postures, allows the change iff
the `f64` threat jump exceeds the threshold, or the transition is an
escalation (strictly upward in `Neutral < Silent < Mimetic < Fulgurant <
Unstable`) with `new > old` and `new > 0.3`, or it is a de-escalation with
`new < old` and `old - new > 0.2`; the default threshold is `0.75`; and
concretely, from `Fulgurant` at old threat `0.75`, dropping to `0.62` is
refused while dropping to `0.50` is allowed. -/
theorem c3_gate :
    (∀ (m : AdaptiveManager) (current proposed : Posture) (old_threat new_threat : ℚ),
      current ≠ proposed →
      (should_change_posture m current proposed old_threat new_threat = true ↔
        (m.threshold < |fsub new_threat old_threat| ∨
         (escRank current < escRank proposed ∧ old_threat < new_threat ∧ q03 < new_threat) ∨
         (escRank proposed < escRank current ∧ new_threat < old_threat ∧
           q02 < fsub old_threat new_threat)))) ∧
    AdaptiveManager.new.threshold = 3 / 4 ∧
    should_change_posture AdaptiveManager.new .Fulgurant .Mimetic (3 / 4) q062 = false ∧
    should_change_posture AdaptiveManager.new .Fulgurant .Mimetic (3 / 4) (1 / 2) = true := by
  refine ⟨?_, rfl, ?_, ?_⟩
  · intro m c p old_threat new_threat hne
    unfold should_change_posture
    rw [is_escalation_eq]
    by_cases hov : m.threshold < |fsub new_threat old_threat|
    · rw [if_pos hov]
      simp [hov]
    · rw [if_neg hov]
      by_cases hesc : escRank c < escRank p
      · rw [if_pos (decide_eq_true hesc)]
        have hnd : ¬escRank p < escRank c := by omega
        simp [hov, hesc, hnd]
      · have hne2 : escRank c ≠ escRank p := fun h => hne (escRank_inj c p h)
        have hlt : escRank p < escRank c := by omega
        rw [if_neg (by simpa using hesc)]
        simp [hov, hesc, hlt]
  · unfold should_change_posture
    rw [fsub_q062_075]
    rw [if_neg (by
      rw [abs_neg, abs_of_pos (by norm_num : (0 : ℚ) < 4683743612465316 / 2 ^ 55)]
      norm_num [AdaptiveManager.new])]
    rw [if_neg (by simp [is_escalation])]
    rw [fsub_075_q062]
    have hno : ¬q02 < 4683743612465316 / 2 ^ 55 := by norm_num [q02]
    simp [hno]
  · unfold should_change_posture
    rw [fsub_half_075]
    rw [if_neg (by
      rw [abs_neg, abs_of_pos (by norm_num : (0 : ℚ) < 1 / 4)]
      norm_num [AdaptiveManager.new])]
    rw [if_neg (by simp [is_escalation])]
    rw [fsub_075_half]
    simp only [Bool.and_eq_true, decide_eq_true_eq]
    constructor <;> norm_num [q02]

/-- Witness for C3: concrete distinct postures, evaluating the gate
equivalence at `Neutral → Silent` with threats `0` and `1`. -/
theorem c3_witness :
    Posture.Neutral ≠ Posture.Silent ∧
    (should_change_posture AdaptiveManager.new .Neutral .Silent 0 1 = true ↔
      (AdaptiveManager.new.threshold < |fsub 1 0| ∨
       (escRank .Neutral < escRank .Silent ∧ (0 : ℚ) < 1 ∧ q03 < 1) ∨
       (escRank .Silent < escRank .Neutral ∧ (1 : ℚ) < 0 ∧ q02 < fsub 0 1))) :=
  ⟨by decide, c3_gate.1 AdaptiveManager.new .Neutral .Silent 0 1 (by decide)⟩

/-- C4, counterexample: the `#[derive(PartialOrd, Ord)]` ordering on
`Severity` compares declaration indices, and `Critical` is declared
first, so `Critical < High` — the opposite of the claimed
`Critical > High`. -/
theorem c4_counterexample :
    sevLt Severity.Critical Severity.High ∧ ¬sevLt Severity.High Severity.Critical := by
  constructor <;> simp [sevLt, Severity.discr]

/-- C4, amended: the derived ordering on `Severity` satisfies
`Critical < High < Medium < Low < Info`: `Critical` is the LEAST element
and `Info` the greatest. -/
theorem c4_amended :
    (∀ s : Severity, sevLe Severity.Critical s ∧ sevLe s Severity.Info) ∧
    sevLt Severity.Critical Severity.High ∧ sevLt Severity.High Severity.Medium ∧
    sevLt Severity.Medium Severity.Low ∧ sevLt Severity.Low Severity.Info := by
  refine ⟨?_, ?_, ?_, ?_, ?_⟩
  · intro s; cases s <;> constructor <;> simp [sevLe, Severity.discr]
  all_goals simp [sevLt, Severity.discr]

/-- C5, counterexample: called with equal postures, the gate does NOT
always return `false`: equal postures fall through the wildcard into the
de-escalation branch, so with `old = 0.9`, `new = 0.4` (drop `0.5 > 0.2`)
it returns `true`. -/
theorem c5_counterexample :
    should_change_posture AdaptiveManager.new .Neutral .Neutral q09 q04 = true := by
  unfold should_change_posture
  rw [fsub_q04_q09]
  rw [if_neg (by
    rw [abs_neg, abs_of_pos (by norm_num : (0 : ℚ) < 1 / 2)]
    norm_num [AdaptiveManager.new])]
  rw [if_neg (by simp [is_escalation])]
  rw [fsub_q09_q04]
  simp only [Bool.and_eq_true, decide_eq_true_eq]
  constructor
  · norm_num [q04, q09]
  · norm_num [q02]

/-- C5, amended: with equal current and proposed postures the gate never
signals a hard failure (it is a total Boolean function), but it does not
unconditionally refuse: it still applies the threshold override and —
because the wildcard classifies the pair as a de-escalation — the
de-escalation conditions; it returns `false` only when neither holds. -/
theorem c5_equal_posture (m : AdaptiveManager) (p : Posture) (old_threat new_threat : ℚ) :
    should_change_posture m p p old_threat new_threat =
      (decide (m.threshold < |fsub new_threat old_threat|) ||
       (decide (new_threat < old_threat) && decide (q02 < fsub old_threat new_threat))) := by
  unfold should_change_posture
  rw [is_escalation_eq]
  have hirr : ¬escRank p < escRank p := lt_irrefl _
  by_cases hov : m.threshold < |fsub new_threat old_threat|
  · simp [hov, hirr]
  · simp [hov, hirr]

/-- C6: batch evaluation `evaluate_events` commits a posture change and
returns `true` exactly when the windowed threat level reaches
`change_threshold` (default `0.75`) and the best posture differs from the
current one — in that case the commit is unconditional (`set_posture`
plus one history entry; no hysteresis gate is consulted), and otherwise
the engine is unchanged and `false` is returned.  The hypothesis states
that the computed best posture is in the configured allowed list (true
for the default configuration), so that the commit cannot fail. -/
theorem c6_evaluate_events (pe : PE.PostureEngine) (events : List Event) (now : ℕ)
    (hp : PE.determine_best_posture (PE.threat_level_of events) events ∈ pe.config.postures) :
    PE.PostureEngineConfig.default.change_threshold = 3 / 4 ∧
    PE.evaluate_events pe events now =
      if pe.config.change_threshold ≤ PE.threat_level_of events ∧
         pe.current_posture ≠ PE.determine_best_posture (PE.threat_level_of events) events
      then .ok ({ pe with
          current_posture := PE.determine_best_posture (PE.threat_level_of events) events
          posture_history := pe.posture_history ++
            [(PE.determine_best_posture (PE.threat_level_of events) events, now)] }, true)
      else .ok (pe, false) := by
  refine ⟨rfl, ?_⟩
  simp only [PE.evaluate_events]
  by_cases hth : pe.config.change_threshold ≤ PE.threat_level_of events
  · rw [if_pos hth]
    by_cases hne : pe.current_posture ≠ PE.determine_best_posture (PE.threat_level_of events) events
    · rw [if_pos hne, if_pos ⟨hth, hne⟩]
      simp only [PE.set_posture]
      rw [if_neg (not_not_intro hp)]
    · rw [if_neg hne, if_neg (by tauto)]
  · rw [if_neg hth, if_neg (by tauto)]

theorem threat_level_nil : PE.threat_level_of [] = 0 := by
  norm_num [PE.threat_level_of]

theorem best_posture_nil : PE.determine_best_posture (PE.threat_level_of []) [] = PE.Posture.Silent := by
  rw [threat_level_nil]
  unfold PE.determine_best_posture
  rw [if_neg (by norm_num [q09]), if_neg (by norm_num [q06]), if_neg (by norm_num [q03])]

/-- Witness for C6: the empty slice on the default engine. -/
theorem c6_witness :
    PE.determine_best_posture (PE.threat_level_of []) [] ∈ pe_default_engine.config.postures ∧
    (PE.PostureEngineConfig.default.change_threshold = 3 / 4 ∧
     PE.evaluate_events pe_default_engine [] 0 =
       if pe_default_engine.config.change_threshold ≤ PE.threat_level_of [] ∧
          pe_default_engine.current_posture ≠
            PE.determine_best_posture (PE.threat_level_of []) []
       then .ok ({ pe_default_engine with
           current_posture := PE.determine_best_posture (PE.threat_level_of []) []
           posture_history := pe_default_engine.posture_history ++
             [(PE.determine_best_posture (PE.threat_level_of []) [], 0)] }, true)
       else .ok (pe_default_engine, false)) := by
  have hp : PE.determine_best_posture (PE.threat_level_of []) [] ∈ pe_default_engine.config.postures := by
    rw [best_posture_nil]
    simp [pe_default_engine, PE.PostureEngineConfig.default]
  exact ⟨hp, c6_evaluate_events pe_default_engine [] 0 hp⟩

/-- C7: the metrics event history is bounded at 10000 with FIFO eviction:
after any sequence of `record_event` calls the history holds at most
10000 events, and after exactly 10001 calls the history is precisely the
sequence without its first (oldest) event. -/
theorem c7_history (es : List Event) :
    (record_events [] es).length ≤ 10000 ∧
    (es.length = 10001 → record_events [] es = es.tail) := by
  constructor
  · rw [record_events_eq_drop, List.length_drop]
    omega
  · intro h
    rw [record_events_eq_drop, h]
    rw [show (10001 - 10000 : ℕ) = 1 from rfl, List.drop_one]

/-- Witness for C7: 10001 copies of a concrete event. -/
theorem c7_witness :
    (List.replicate 10001 sample_event).length = 10001 ∧
    record_events [] (List.replicate 10001 sample_event) =
      (List.replicate 10001 sample_event).tail :=
  ⟨by rw [List.length_replicate], (c7_history (List.replicate 10001 sample_event)).2
    (by rw [List.length_replicate])⟩

/-- C8: with three registered handlers where the first succeeds and the
second fails on the dispatched signal, dispatch invokes exactly the first
two handlers in order (the third records zero invocations), returns
`ProcessingFailed` naming the second handler with its cause, and the
signal is recorded in the dispatch history regardless. -/
theorem c8_dispatch (n1 n2 n3 : String) (h1 h2 h3 : Dispatch.Handler)
    (hist : List Dispatch.AdaptiveEvent) (signal : Dispatch.AdaptiveEvent) (cause : String)
    (hok : h1 signal = .ok ()) (hfail : h2 signal = .error cause) :
    (Dispatch.process_event ⟨[(n1, h1), (n2, h2), (n3, h3)], hist⟩ signal).2.1 = [n1, n2] ∧
    (Dispatch.process_event ⟨[(n1, h1), (n2, h2), (n3, h3)], hist⟩ signal).2.2 =
      .error (.ProcessingFailed n2 cause) ∧
    signal ∈ (Dispatch.process_event ⟨[(n1, h1), (n2, h2), (n3, h3)], hist⟩ signal).1.history := by
  have hrun : Dispatch.run_handlers [(n1, h1), (n2, h2), (n3, h3)] signal =
      ([n1, n2], .error (.ProcessingFailed n2 cause)) := by
    simp [Dispatch.run_handlers, hok, hfail]
  refine ⟨?_, ?_, ?_⟩
  · simp only [Dispatch.process_event, hrun]
  · simp only [Dispatch.process_event, hrun]
  · simp only [Dispatch.process_event]
    exact mem_trimmed_history hist signal

/-- Witness for C8: three concrete handlers, the second failing. -/
theorem c8_witness :
    handler_ok w_signal = .ok () ∧ handler_fail w_signal = .error "boom" ∧
    ((Dispatch.process_event
        ⟨[("alpha", handler_ok), ("beta", handler_fail), ("gamma", handler_ok)], []⟩
        w_signal).2.1 = ["alpha", "beta"] ∧
     (Dispatch.process_event
        ⟨[("alpha", handler_ok), ("beta", handler_fail), ("gamma", handler_ok)], []⟩
        w_signal).2.2 = .error (.ProcessingFailed "beta" "boom") ∧
     w_signal ∈ (Dispatch.process_event
        ⟨[("alpha", handler_ok), ("beta", handler_fail), ("gamma", handler_ok)], []⟩
        w_signal).1.history) :=
  ⟨rfl, rfl,
    c8_dispatch "alpha" "beta" "gamma" handler_ok handler_fail handler_ok [] w_signal "boom"
      rfl rfl⟩

/-- C9: `severity()` never returns `Critical`, so the batch threat level
is at most `0.7` for every slice; under the default configuration
(`change_threshold = 0.75`) `evaluate_events` therefore never changes the
posture and always returns `false`. -/
theorem c9_never_changes :
    (∀ e : Event, e.severity ≠ Severity.Critical) ∧
    ∀ (p : PE.Posture) (hist : List (PE.Posture × ℕ)) (events : List Event) (now : ℕ),
      PE.threat_level_of events ≤ 7 / 10 ∧
      PE.evaluate_events ⟨PE.PostureEngineConfig.default, p, hist⟩ events now =
        .ok (⟨PE.PostureEngineConfig.default, p, hist⟩, false) := by
  refine ⟨severity_ne_critical, ?_⟩
  intro p hist events now
  have hle : PE.threat_level_of events ≤ q07 := threat_level_le_q07 events
  have hq : q07 < 3 / 4 := by norm_num [q07]
  refine ⟨le_trans hle (by norm_num [q07]), ?_⟩
  simp only [PE.evaluate_events]
  rw [if_neg (by
    show ¬(PE.PostureEngineConfig.default.change_threshold ≤ PE.threat_level_of events)
    rw [show PE.PostureEngineConfig.default.change_threshold = 3 / 4 from rfl]
    intro hcon
    linarith)]

/-- Witness for C9: a concrete singleton slice on a concrete default
engine. -/
theorem c9_witness :
    sample_event.severity ≠ Severity.Critical ∧
    (PE.threat_level_of [sample_event] ≤ 7 / 10 ∧
     PE.evaluate_events ⟨PE.PostureEngineConfig.default, .Silent, []⟩ [sample_event] 0 =
       .ok (⟨PE.PostureEngineConfig.default, .Silent, []⟩, false)) :=
  ⟨c9_never_changes.1 sample_event, c9_never_changes.2 .Silent [] [sample_event] 0⟩

/-- C10: `set_posture` with a posture outside the configured allowed list
fails with `InvalidPosture` (leaving the engine untouched — the model
returns no updated state on the error path, mirroring the source, which
checks the list before any mutation); with an allowed posture it updates
the current posture and appends exactly one `(posture, timestamp)` entry
to the history. -/
theorem c10_set_posture (pe : PE.PostureEngine) (p : PE.Posture) (now : ℕ) :
    (p ∉ pe.config.postures →
      PE.set_posture pe p now =
        .error (.InvalidPosture ("Posture not in allowed list: " ++ p.debugName))) ∧
    (p ∈ pe.config.postures →
      PE.set_posture pe p now = .ok { pe with
        current_posture := p
        posture_history := pe.posture_history ++ [(p, now)] }) := by
  constructor
  · intro h
    unfold PE.set_posture
    rw [if_pos h]
  · intro h
    unfold PE.set_posture
    rw [if_neg (not_not_intro h)]

/-- Witness for C10: `Neutral` is rejected by the restricted engine,
`Silent` is accepted. -/
theorem c10_witness :
    (PE.Posture.Neutral ∉ pe_restricted.config.postures ∧
      PE.set_posture pe_restricted .Neutral 5 =
        .error (.InvalidPosture
          ("Posture not in allowed list: " ++ PE.Posture.debugName .Neutral))) ∧
    (PE.Posture.Silent ∈ pe_restricted.config.postures ∧
      PE.set_posture pe_restricted .Silent 5 = .ok { pe_restricted with
        current_posture := .Silent
        posture_history := pe_restricted.posture_history ++ [(.Silent, 5)] }) := by
  have hnot : PE.Posture.Neutral ∉ pe_restricted.config.postures := by decide
  have hin : PE.Posture.Silent ∈ pe_restricted.config.postures := by decide
  exact ⟨⟨hnot, (c10_set_posture pe_restricted .Neutral 5).1 hnot⟩,
    ⟨hin, (c10_set_posture pe_restricted .Silent 5).2 hin⟩⟩

end Camaleon
